import Mathlib

/-!
Verification of the validation-and-derivation engine of an agricultural
crop-record system (soybean and sugarcane).

The embedding below is a shallow model of the Python source:

* `controllers/culture_controller.py` — the recommendation tables, the
  parameter validators, the row-count geometry strategies, the
  input-quantity derivation and the record builder `create_culture`;
* `controllers/menu_controller.py` — the field-update operation
  `update_culture`;
* `services/r_integration.py` — the outcome shape of the external
  statistical-analysis collaborator `send_to_r_for_analysis`.

Numeric values are modelled as exact rationals; the square roots taken by
the geometry strategies are modelled as real square roots, and Python's
`int(...)` conversion as truncation toward zero.  Human-readable report
messages are modelled as the same concatenations the source performs
(numeric interpolation rendered through `toString` rather than Python's
float formatting — no property depends on the rendered digits).
-/

namespace Cap1

/-- Python `str.lower` restricted to the alphabet used by the sub-type
keys: ASCII letters are lowered, and the accented uppercase letters that
occur in the table keys are mapped to their lowercase forms. -/
def pyLowerChar (c : Char) : Char :=
  if c = 'É' then 'é'
  else if c = 'Ê' then 'ê'
  else if c = 'Á' then 'á'
  else if c = 'Í' then 'í'
  else c.toLower

/-- Python `str.lower` on a whole string (character-wise). -/
def pyLower (s : String) : String := String.mk (s.data.map pyLowerChar)

/-- Spacing reference range (`espacamento` block of a profile): the
minimum, maximum and ideal row spacing in metres. -/
structure SpacingSpec where
  min : ℚ
  max : ℚ
  ideal : ℚ
  unit : String
deriving DecidableEq

/-- Area reference range (`area` block of a profile): the maximum is
optional — `none` models the Python `None` of the sugarcane long cycle. -/
structure AreaSpec where
  min : ℚ
  max : Option ℚ
  ideal : ℚ
  unit : String
  description : String
deriving DecidableEq

/-- Duration block (`duracao`) of a profile. -/
structure DuracaoSpec where
  meses : String
  description : String
deriving DecidableEq

/-- Irrigation reference block (`irrigacao`) of a profile. -/
structure IrrigacaoSpec where
  sistema : String
  frequencia : String
  volume : String
  eficiencia : String
  description : String
deriving DecidableEq

/-- A sub-type profile: one entry of `SUGARCANE_RECOMMENDATIONS` or
`SOYBEAN_RECOMMENDATIONS`. -/
structure SubTypeProfile where
  espacamento : SpacingSpec
  area : AreaSpec
  duracao : DuracaoSpec
  irrigacao : IrrigacaoSpec
deriving DecidableEq

/-- Sugarcane short-cycle profile (`"curto"`). -/
def sugarcaneCurto : SubTypeProfile where
  espacamento := { min := 1.4, max := 1.5, ideal := 1.45, unit := "metros" }
  area := { min := 5, max := some 10, ideal := 8, unit := "hectares",
            description := "Viável em menor escala devido ao retorno mais rápido" }
  duracao := { meses := "8-10",
               description := "Maturação mais rápida, menor produtividade total" }
  irrigacao := { sistema := "Gotejamento",
                 frequencia := "Alta (a cada 2-3 dias em períodos secos)",
                 volume := "4-5 mm/dia",
                 eficiencia := "90-95% de aproveitamento da água",
                 description := "Mais eficiente para ciclos curtos" }

/-- Sugarcane medium-cycle profile (`"médio"`), the default cycle. -/
def sugarcaneMedio : SubTypeProfile where
  espacamento := { min := 1.5, max := 1.6, ideal := 1.55, unit := "metros" }
  area := { min := 10, max := some 20, ideal := 15, unit := "hectares",
            description := "Equilíbrio entre rendimento e tempo" }
  duracao := { meses := "12-14",
               description := "Equilíbrio entre tempo de cultivo e produtividade" }
  irrigacao := { sistema := "Aspersão convencional ou pivô central",
                 frequencia := "Moderada (a cada 5-7 dias em períodos secos)",
                 volume := "5-7 mm/dia",
                 eficiencia := "75-85% de aproveitamento da água",
                 description := "Balanceamento entre eficiência e cobertura" }

/-- Sugarcane long-cycle profile (`"longo"`): its area range has no upper
bound (`max = None` in the source). -/
def sugarcaneLongo : SubTypeProfile where
  espacamento := { min := 1.6, max := 1.8, ideal := 1.7, unit := "metros" }
  area := { min := 20, max := none, ideal := 30, unit := "hectares",
            description := "Maior escala para compensar o ciclo mais longo" }
  duracao := { meses := "16-18",
               description := "Maior tempo de cultivo, maior produtividade total" }
  irrigacao := { sistema := "Aspersão de maior alcance",
                 frequencia := "Baixa (a cada 7-10 dias em períodos secos)",
                 volume := "8-10 mm/dia",
                 eficiencia := "70-80% de aproveitamento da água",
                 description := "Prioriza cobertura de grandes áreas" }

/-- Soybean conventional-variety profile (`"convencional"`), the default
variety. -/
def soybeanConvencional : SubTypeProfile where
  espacamento := { min := 0.4, max := 0.5, ideal := 0.45, unit := "metros" }
  area := { min := 5, max := some 100, ideal := 50, unit := "hectares",
            description := "Área recomendada para manejo eficiente" }
  duracao := { meses := "4-5",
               description := "Ciclo usual para soja convencional" }
  irrigacao := { sistema := "Aspersão convencional",
                 frequencia := "Moderada (a cada 3-5 dias em períodos secos)",
                 volume := "5-6 mm/dia",
                 eficiencia := "80-85% de aproveitamento da água",
                 description := "Irrigação complementar para períodos críticos" }

/-- Soybean transgenic-variety profile (`"transgênica"`). -/
def soybeanTransgenica : SubTypeProfile where
  espacamento := { min := 0.4, max := 0.6, ideal := 0.45, unit := "metros" }
  area := { min := 10, max := some 300, ideal := 80, unit := "hectares",
            description := "Maior escala para maximizar o retorno da tecnologia" }
  duracao := { meses := "4-5",
               description := "Ciclo similar à variedade convencional, com maior resistência" }
  irrigacao := { sistema := "Gotejamento ou aspersão",
                 frequencia := "Baixa a moderada (a cada 5-7 dias em períodos secos)",
                 volume := "4-5 mm/dia",
                 eficiencia := "85-90% de aproveitamento da água",
                 description := "Maior resistência ao déficit hídrico" }

/-- The sugarcane recommendation table, keyed by cycle name. -/
def SUGARCANE_RECOMMENDATIONS (k : String) : Option SubTypeProfile :=
  if k = "curto" then some sugarcaneCurto
  else if k = "médio" then some sugarcaneMedio
  else if k = "longo" then some sugarcaneLongo
  else none

/-- The soybean recommendation table, keyed by variety name. -/
def SOYBEAN_RECOMMENDATIONS (k : String) : Option SubTypeProfile :=
  if k = "convencional" then some soybeanConvencional
  else if k = "transgênica" then some soybeanTransgenica
  else none

/-- Sub-type information block of a validation report (`ciclo_info` for
sugarcane, `variedade_info` for soybean). -/
structure SubInfoBlock where
  duracao : String
  descricao : String
deriving DecidableEq

/-- Recommended spacing range echoed inside a report. -/
structure RecomendadoEspacamento where
  min : ℚ
  max : ℚ
  ideal : ℚ
deriving DecidableEq

/-- Recommended area range echoed inside a report. -/
structure RecomendadoArea where
  min : ℚ
  max : Option ℚ
  ideal : ℚ
deriving DecidableEq

/-- Spacing classification block of a validation report. -/
structure EspacamentoBlock where
  status : String
  mensagem : String
  recomendado : RecomendadoEspacamento
deriving DecidableEq

/-- Area classification block of a validation report. -/
structure AreaBlock where
  status : String
  mensagem : String
  recomendado : RecomendadoArea
deriving DecidableEq

/-- Irrigation block of a validation report. -/
structure IrrigacaoBlock where
  ativa : Bool
  mensagem : String
  sistema : String
  frequencia : String
  volume : String
  eficiencia : String
deriving DecidableEq

/-- The structured recommendation report returned by the two parameter
validators. -/
structure ValidationReport where
  subInfo : SubInfoBlock
  espacamento : EspacamentoBlock
  area : AreaBlock
  irrigacao : IrrigacaoBlock
deriving DecidableEq

/-- Python truthiness-guarded upper-bound test: the source writes
`ciclo_rec["area"]["max"] and area > ciclo_rec["area"]["max"]`, so a
`None` (and also a zero) maximum never triggers the `above` branch. -/
def pyTruthyGtMax (mx : Option ℚ) (v : ℚ) : Bool :=
  match mx with
  | none => false
  | some m => if m = 0 then false else decide (m < v)

/-- Cycle-key normalization performed at the top of
`validate_sugarcane_parameters`: lowercase a non-empty key, then fall
back to `"médio"` when the result is not a table key. -/
def sugarcane_effective_cycle (ciclo : String) : String :=
  let c := if ciclo.isEmpty then "médio" else pyLower ciclo
  if (SUGARCANE_RECOMMENDATIONS c).isSome then c else "médio"

/-- Variety-key normalization performed at the top of
`validate_soybean_parameters`: lowercase a non-empty key, then fall back
to `"convencional"` when the result is not a table key. -/
def soybean_effective_variety (variedade : String) : String :=
  let v := if variedade.isEmpty then "convencional" else pyLower variedade
  if (SOYBEAN_RECOMMENDATIONS v).isSome then v else "convencional"

/-- Body of `validate_sugarcane_parameters` after cycle normalization:
classifies spacing and area against the profile of the (already
normalized) cycle and assembles the report. -/
def sugarcane_report (area espacamento : ℚ) (ciclo : String)
    (with_irrigation : Bool) : ValidationReport :=
  let ciclo_rec := (SUGARCANE_RECOMMENDATIONS ciclo).getD sugarcaneMedio
  let espacamento_status :=
    if espacamento < ciclo_rec.espacamento.min then "abaixo"
    else if ciclo_rec.espacamento.max < espacamento then "acima"
    else "adequado"
  let espacamento_msg :=
    if espacamento < ciclo_rec.espacamento.min then
      "O espaçamento está abaixo do mínimo recomendado (" ++
        toString ciclo_rec.espacamento.min ++ " m) para o ciclo " ++ ciclo ++
        ". Espaçamento muito pequeno pode dificultar a mecanização e reduzir a produtividade."
    else if ciclo_rec.espacamento.max < espacamento then
      "O espaçamento está acima do máximo recomendado (" ++
        toString ciclo_rec.espacamento.max ++ " m) para o ciclo " ++ ciclo ++
        ". Espaçamento muito grande pode reduzir o aproveitamento da área."
    else "O espaçamento está dentro do intervalo recomendado."
  let area_status :=
    if area < ciclo_rec.area.min then "abaixo"
    else if pyTruthyGtMax ciclo_rec.area.max area then "acima"
    else "adequada"
  let area_msg :=
    if area < ciclo_rec.area.min then
      "A área está abaixo do mínimo recomendado (" ++
        toString ciclo_rec.area.min ++ " ha) para o ciclo " ++ ciclo ++ ". " ++
        ciclo_rec.area.description
    else if pyTruthyGtMax ciclo_rec.area.max area then
      "A área está acima do máximo recomendado para o ciclo " ++ ciclo ++
        ". Considere se tem recursos suficientes para manejo adequado."
    else "A área está dentro do intervalo recomendado."
  let irrigacao_rec := ciclo_rec.irrigacao
  let irrigacao_msg :=
    if with_irrigation then
      "Sistema de irrigação recomendado: " ++ irrigacao_rec.sistema ++
        ". Frequência: " ++ irrigacao_rec.frequencia ++
        ". Volume: " ++ irrigacao_rec.volume ++
        ". Eficiência: " ++ irrigacao_rec.eficiencia ++ "."
    else
      "A irrigação é altamente recomendada para o ciclo " ++ ciclo ++
        ". Sistema ideal: " ++ irrigacao_rec.sistema ++
        ". Sem irrigação, a produtividade pode ser significativamente reduzida."
  { subInfo := { duracao := ciclo_rec.duracao.meses ++ " meses",
                 descricao := ciclo_rec.duracao.description }
    espacamento := { status := espacamento_status, mensagem := espacamento_msg,
                     recomendado := { min := ciclo_rec.espacamento.min,
                                      max := ciclo_rec.espacamento.max,
                                      ideal := ciclo_rec.espacamento.ideal } }
    area := { status := area_status, mensagem := area_msg,
              recomendado := { min := ciclo_rec.area.min,
                               max := ciclo_rec.area.max,
                               ideal := ciclo_rec.area.ideal } }
    irrigacao := { ativa := with_irrigation, mensagem := irrigacao_msg,
                   sistema := irrigacao_rec.sistema,
                   frequencia := irrigacao_rec.frequencia,
                   volume := irrigacao_rec.volume,
                   eficiencia := irrigacao_rec.eficiencia } }

/-- `CultureController.validate_sugarcane_parameters`. -/
def validate_sugarcane_parameters (area espacamento : ℚ) (ciclo : String)
    (with_irrigation : Bool) : ValidationReport :=
  sugarcane_report area espacamento (sugarcane_effective_cycle ciclo) with_irrigation

/-- Body of `validate_soybean_parameters` after variety normalization. -/
def soybean_report (area espacamento : ℚ) (variedade : String)
    (with_irrigation : Bool) : ValidationReport :=
  let variedade_rec := (SOYBEAN_RECOMMENDATIONS variedade).getD soybeanConvencional
  let espacamento_status :=
    if espacamento < variedade_rec.espacamento.min then "abaixo"
    else if variedade_rec.espacamento.max < espacamento then "acima"
    else "adequado"
  let espacamento_msg :=
    if espacamento < variedade_rec.espacamento.min then
      "O espaçamento está abaixo do mínimo recomendado (" ++
        toString variedade_rec.espacamento.min ++ " m) para soja " ++ variedade ++
        ". Espaçamento muito pequeno pode dificultar o desenvolvimento das plantas."
    else if variedade_rec.espacamento.max < espacamento then
      "O espaçamento está acima do máximo recomendado (" ++
        toString variedade_rec.espacamento.max ++ " m) para soja " ++ variedade ++
        ". Espaçamento muito grande pode reduzir a produtividade."
    else "O espaçamento está dentro do intervalo recomendado."
  let area_status :=
    if area < variedade_rec.area.min then "abaixo"
    else if pyTruthyGtMax variedade_rec.area.max area then "acima"
    else "adequada"
  let area_msg :=
    if area < variedade_rec.area.min then
      "A área está abaixo do mínimo recomendado (" ++
        toString variedade_rec.area.min ++ " ha) para soja " ++ variedade ++ ". " ++
        variedade_rec.area.description
    else if pyTruthyGtMax variedade_rec.area.max area then
      "A área está acima do máximo recomendado para soja " ++ variedade ++
        ". Considere se tem recursos suficientes para manejo adequado."
    else "A área está dentro do intervalo recomendado."
  let irrigacao_rec := variedade_rec.irrigacao
  let irrigacao_msg :=
    if with_irrigation then
      "Sistema de irrigação recomendado: " ++ irrigacao_rec.sistema ++
        ". Frequência: " ++ irrigacao_rec.frequencia ++
        ". Volume: " ++ irrigacao_rec.volume ++
        ". Eficiência: " ++ irrigacao_rec.eficiencia ++ "."
    else
      "A irrigação é recomendada para maximizar a produtividade da soja " ++ variedade ++
        ". Sistema ideal: " ++ irrigacao_rec.sistema ++
        ". Sem irrigação, a produtividade pode ser reduzida em períodos de estiagem."
  { subInfo := { duracao := variedade_rec.duracao.meses ++ " meses",
                 descricao := variedade_rec.duracao.description }
    espacamento := { status := espacamento_status, mensagem := espacamento_msg,
                     recomendado := { min := variedade_rec.espacamento.min,
                                      max := variedade_rec.espacamento.max,
                                      ideal := variedade_rec.espacamento.ideal } }
    area := { status := area_status, mensagem := area_msg,
              recomendado := { min := variedade_rec.area.min,
                               max := variedade_rec.area.max,
                               ideal := variedade_rec.area.ideal } }
    irrigacao := { ativa := with_irrigation, mensagem := irrigacao_msg,
                   sistema := irrigacao_rec.sistema,
                   frequencia := irrigacao_rec.frequencia,
                   volume := irrigacao_rec.volume,
                   eficiencia := irrigacao_rec.eficiencia } }

/-- `CultureController.validate_soybean_parameters`. -/
def validate_soybean_parameters (area espacamento : ℚ) (variedade : String)
    (with_irrigation : Bool) : ValidationReport :=
  soybean_report area espacamento (soybean_effective_variety variedade) with_irrigation

/-- Python `int(x)` applied to a real value: truncation toward zero. -/
noncomputable def pyInt (x : ℝ) : ℤ :=
  if 0 ≤ x then ⌊x⌋ else ⌈x⌉

/-- `CultureController._calculate_square_strategy` on the non-negative
area domain: hectares to square metres, side of the notional square,
rows along the side.  On this domain `Real.sqrt` agrees with Python's
`math.sqrt`; the source's `ValueError` on a negative area is modelled by
`calculate_square_strategy_checked` below, and the two coincide for
`area ≥ 0`. -/
noncomputable def calculate_square_strategy (area espacamento : ℚ) : ℤ :=
  let area_m2 : ℝ := (area : ℝ) * 10000
  let lado := Real.sqrt area_m2
  pyInt (lado / (espacamento : ℝ))

/-- `CultureController._calculate_rectangular_strategy` on the
non-negative area domain: rectangle of the given aspect ratio
(`proporcao`, called with its default `1.5`), rows along the width.
The source's `ValueError` on a negative area is modelled by
`calculate_rectangular_strategy_checked` below, and the two coincide for
`area ≥ 0`. -/
noncomputable def calculate_rectangular_strategy (area espacamento proporcao : ℚ) : ℤ :=
  let area_m2 : ℝ := (area : ℝ) * 10000
  let largura := Real.sqrt (area_m2 / (proporcao : ℝ))
  pyInt (largura / (espacamento : ℝ))

/-- The strategy registry `self.calculation_strategies` of the source:
`"quadrado"` and `"retangular"` (the latter bound at its default aspect
ratio `1.5`). -/
noncomputable def calculation_strategies (s : String) : Option (ℚ → ℚ → ℤ) :=
  if s = "quadrado" then some calculate_square_strategy
  else if s = "retangular" then some (fun a e => calculate_rectangular_strategy a e 1.5)
  else none

/-- `CultureController.calculate_lines_by_strategy`: unknown strategy
names fall back to `"quadrado"` and non-positive spacing falls back to
`1.0`; then the selected strategy is applied. -/
noncomputable def calculate_lines_by_strategy (strategy : String) (area espacamento : ℚ) : ℤ :=
  let strategy := if (calculation_strategies strategy).isSome then strategy else "quadrado"
  let espacamento := if espacamento ≤ 0 then 1 else espacamento
  ((calculation_strategies strategy).getD calculate_square_strategy) area espacamento

/-- Python `math.sqrt`: raises `ValueError` ("math domain error") on a
negative argument, otherwise the real square root. -/
noncomputable def math_sqrt (x : ℝ) : Except String ℝ :=
  if x < 0 then Except.error "math domain error" else Except.ok (Real.sqrt x)

/-- `CultureController._calculate_square_strategy` with the `math.sqrt`
domain error made explicit: fails exactly when `area * 10000 < 0`. -/
noncomputable def calculate_square_strategy_checked (area espacamento : ℚ) :
    Except String ℤ :=
  let area_m2 : ℝ := (area : ℝ) * 10000
  match math_sqrt area_m2 with
  | Except.error e => Except.error e
  | Except.ok lado => Except.ok (pyInt (lado / (espacamento : ℝ)))

/-- `CultureController._calculate_rectangular_strategy` with the
`math.sqrt` domain errors made explicit; the (otherwise unused)
`comprimento = sqrt(area_m2 * proporcao)` of the source is the first
raiser and is kept for that reason. -/
noncomputable def calculate_rectangular_strategy_checked
    (area espacamento proporcao : ℚ) : Except String ℤ :=
  let area_m2 : ℝ := (area : ℝ) * 10000
  match math_sqrt (area_m2 * (proporcao : ℝ)) with
  | Except.error e => Except.error e
  | Except.ok _comprimento =>
    match math_sqrt (area_m2 / (proporcao : ℝ)) with
    | Except.error e => Except.error e
    | Except.ok largura => Except.ok (pyInt (largura / (espacamento : ℝ)))

/-- The strategy registry over the domain-checked strategies. -/
noncomputable def calculation_strategies_checked (s : String) :
    Option (ℚ → ℚ → Except String ℤ) :=
  if s = "quadrado" then some calculate_square_strategy_checked
  else if s = "retangular" then
    some (fun a e => calculate_rectangular_strategy_checked a e 1.5)
  else none

/-- `CultureController.calculate_lines_by_strategy` with the `math.sqrt`
domain error made explicit: the fallbacks guard the strategy name and
the spacing, but nothing guards a negative area. -/
noncomputable def calculate_lines_by_strategy_checked (strategy : String)
    (area espacamento : ℚ) : Except String ℤ :=
  let strategy :=
    if (calculation_strategies_checked strategy).isSome then strategy else "quadrado"
  let espacamento := if espacamento ≤ 0 then 1 else espacamento
  ((calculation_strategies_checked strategy).getD calculate_square_strategy_checked)
    area espacamento

/-- Opaque payload of the external statistical analysis (its internal
structure is out of scope; only presence or absence matters). -/
abbrev RAnalysis := String

/-- The central record, mirroring the dictionary assembled by
`create_culture`: fields that the source only sets conditionally are
`Option`s (absent key = `none`). -/
structure CultureRecord where
  area : ℚ
  espacamento : ℚ
  irrigacao : Bool
  tipo : String
  variedade : Option String
  ciclo : Option String
  strategy : String
  recomendacoes : ValidationReport
  dosagem_herbicida : ℚ
  dosagem_fertilizante : ℚ
  linhas_calculadas : ℤ
  quantidade_herbicida : ℚ
  quantidade_fertilizante : ℚ
  comprimento_linha : Option ℚ
  metros_lineares_total : Option ℚ
  consumo_agua : Option ℚ
  analise_estatistica : Option RAnalysis
deriving DecidableEq

/-- View of a record as the dictionary read by `calculate_lines`
(every key may be absent, each read uses the source's `get` default). -/
structure LinesInput where
  strategy : Option String
  area : Option ℚ
  espacamento : Option ℚ
deriving DecidableEq

/-- The `get`-with-default view of a full record. -/
def CultureRecord.toLinesInput (r : CultureRecord) : LinesInput :=
  { strategy := some r.strategy, area := some r.area, espacamento := some r.espacamento }

/-- `CultureController.calculate_lines`: the exposed per-record row-count
operation; unlike the strategy engine it raises on non-positive spacing
instead of falling back. The `culture_id` argument is unused by the
source body as well. -/
noncomputable def calculate_lines (_culture_id : ℤ) (culture_data : LinesInput) :
    Except String ℤ :=
  let strategy := culture_data.strategy.getD "quadrado"
  let area := culture_data.area.getD 0
  let espacamento := culture_data.espacamento.getD 0
  if espacamento ≤ 0 then
    Except.error "Espaçamento inválido. Deve ser maior que zero."
  else
    Except.ok (calculate_lines_by_strategy strategy area espacamento)

/-- `CultureController._calculate_inputs`: unconditionally derives the
herbicide and fertilizer totals, and sets the row-length estimate and the
total linear metres only when both the row count and the spacing are
positive (otherwise the two keys are left untouched — absent if they were
absent). -/
def calculate_inputs (culture_data : CultureRecord) : CultureRecord :=
  let area := culture_data.area
  let dosagem_herbicida := culture_data.dosagem_herbicida
  let dosagem_fertilizante := culture_data.dosagem_fertilizante
  let linhas := culture_data.linhas_calculadas
  let espacamento := culture_data.espacamento
  let base := { culture_data with
                quantidade_herbicida := area * dosagem_herbicida
                quantidade_fertilizante := area * dosagem_fertilizante }
  if 0 < linhas ∧ 0 < espacamento then
    let comprimento_linha := (area * 10000) / ((linhas : ℚ) * espacamento)
    { base with
      comprimento_linha := some comprimento_linha
      metros_lineares_total := some ((linhas : ℚ) * comprimento_linha) }
  else
    base

/-- The keyword arguments `create_culture` consults (`variedade` for
soybean, `ciclo` for sugarcane). -/
structure Kwargs where
  variedade : Option String
  ciclo : Option String
deriving DecidableEq

/-- Outcome of `send_to_r_for_analysis` as observed by `create_culture`:
the collaborator never raises — every failure surfaces as `none`. -/
def send_to_r_for_analysis (valid_data : Bool) (exec_result : Except String RAnalysis) :
    Option RAnalysis :=
  if valid_data = false then none
  else
    match exec_result with
    | Except.error _ => none
    | Except.ok a => some a

/-- Tail of `create_culture` shared by both crop branches: row count,
input quantities, water consumption when irrigating, and attachment of
the external analysis when the collaborator produced one. -/
noncomputable def finalize_record (base : CultureRecord) (strategy : String)
    (area espacamento : ℚ) (with_irrigation : Bool)
    (r_analysis : Option RAnalysis) : CultureRecord :=
  let linhas := calculate_lines_by_strategy strategy area espacamento
  let withLines := { base with linhas_calculadas := linhas }
  let withInputs := calculate_inputs withLines
  let withWater :=
    if with_irrigation then
      { withInputs with consumo_agua := some (area * 10000 * 0.8) }
    else withInputs
  match r_analysis with
  | some a => { withWater with analise_estatistica := some a }
  | none => withWater

/-- `CultureController.create_culture`: validates the raw inputs, builds
the crop-specific base record, then derives the remaining fields.
`r_analysis` is the outcome of the external statistical-analysis
collaborator (whose own failures have already degraded to `none`). -/
noncomputable def create_culture (culture_type : ℤ) (area espacamento : ℚ)
    (with_irrigation : Bool) (kwargs : Kwargs)
    (r_analysis : Option RAnalysis) : Except String CultureRecord :=
  if area ≤ 0 then
    Except.error "A área de plantio deve ser maior que zero"
  else if espacamento ≤ 0 then
    Except.error "O espaçamento entre linhas deve ser maior que zero"
  else if culture_type = 1 then
    let strategy := "quadrado"
    let variedade := kwargs.variedade.getD "convencional"
    let recommendations := validate_soybean_parameters area espacamento variedade with_irrigation
    let base : CultureRecord :=
      { area := area, espacamento := espacamento, irrigacao := with_irrigation
        tipo := "Soja", variedade := some variedade, ciclo := none
        strategy := strategy, recomendacoes := recommendations
        dosagem_herbicida := 2.5, dosagem_fertilizante := 300
        linhas_calculadas := 0
        quantidade_herbicida := 0, quantidade_fertilizante := 0
        comprimento_linha := none, metros_lineares_total := none
        consumo_agua := none, analise_estatistica := none }
    Except.ok (finalize_record base strategy area espacamento with_irrigation r_analysis)
  else if culture_type = 2 then
    let strategy := "retangular"
    let ciclo := kwargs.ciclo.getD "médio"
    let recommendations := validate_sugarcane_parameters area espacamento ciclo with_irrigation
    let base : CultureRecord :=
      { area := area, espacamento := espacamento, irrigacao := with_irrigation
        tipo := "Cana-de-Açúcar", variedade := none, ciclo := some ciclo
        strategy := strategy, recomendacoes := recommendations
        dosagem_herbicida := 3.0, dosagem_fertilizante := 400
        linhas_calculadas := 0
        quantidade_herbicida := 0, quantidade_fertilizante := 0
        comprimento_linha := none, metros_lineares_total := none
        consumo_agua := none, analise_estatistica := none }
    Except.ok (finalize_record base strategy area espacamento with_irrigation r_analysis)
  else
    Except.error "Tipo de cultura inválido"

/-- The update payload of `MenuController.update_culture` (each key may
be absent; numeric values arrive already parsed as in the source's
`float(...)` conversion, the irrigation flag as its raw string). -/
structure FormData where
  area : Option ℚ
  espacamento : Option ℚ
  variedade : Option String
  ciclo : Option String
  irrigacao : Option String
deriving DecidableEq

/-- The source's irrigation-flag parse:
`str(...).lower() in ['true','sim','s','yes','y','1','on']`. -/
def pyParseBool (s : String) : Bool :=
  let t := pyLower s
  t == "true" || t == "sim" || t == "s" || t == "yes" || t == "y" ||
    t == "1" || t == "on"

/-- `MenuController.update_culture` restricted to a single stored record
(the surrounding id lookup and deleted-flag check are elided): updates
the permitted fields in source order, revalidates only inside the
sub-type and irrigation branches, and re-derives the row count and the
input quantities when area or spacing was part of the payload.  The
returned flag is the source's `updated`. -/
noncomputable def update_culture (r0 : CultureRecord) (form : FormData) :
    Except String (CultureRecord × Bool) :=
  let step_area : Except String (CultureRecord × Bool) :=
    match form.area with
    | none => Except.ok (r0, false)
    | some v =>
      if v ≤ 0 then Except.error "Valor para area deve ser maior que zero"
      else Except.ok ({ r0 with area := v }, true)
  match step_area with
  | Except.error e => Except.error e
  | Except.ok (r1, u1) =>
    let step_esp : Except String (CultureRecord × Bool) :=
      match form.espacamento with
      | none => Except.ok (r1, u1)
      | some v =>
        if v ≤ 0 then Except.error "Valor para espacamento deve ser maior que zero"
        else Except.ok ({ r1 with espacamento := v }, true)
    match step_esp with
    | Except.error e => Except.error e
    | Except.ok (r2, u2) =>
      -- crop-specific sub-type update; the revalidation of the report is
      -- NESTED inside the `variedade`/`ciclo`-present branch, exactly as
      -- in the source (its inner guard is vacuous there: `updated` has
      -- just been set and the sub-type key is present).
      let step_sub : CultureRecord × Bool :=
        if r2.tipo = "Soja" ∧ form.variedade.isSome then
          let r := { r2 with variedade := form.variedade }
          if form.area.isSome ∨ form.espacamento.isSome ∨ form.variedade.isSome then
            let rep := validate_soybean_parameters r.area r.espacamento
              (r.variedade.getD "convencional") r.irrigacao
            ({ r with recomendacoes := rep }, true)
          else (r, true)
        else if r2.tipo = "Cana-de-Açúcar" ∧ form.ciclo.isSome then
          let r := { r2 with ciclo := form.ciclo }
          if form.area.isSome ∨ form.espacamento.isSome ∨ form.ciclo.isSome then
            let rep := validate_sugarcane_parameters r.area r.espacamento
              (r.ciclo.getD "médio") r.irrigacao
            ({ r with recomendacoes := rep }, true)
          else (r, true)
        else (r2, u2)
      let r3 := step_sub.1
      let u3 := step_sub.2
      let step_irr : CultureRecord × Bool :=
        match form.irrigacao with
        | none => (r3, u3)
        | some s =>
          let irrigacao := pyParseBool s
          let r := { r3 with irrigacao := irrigacao }
          if r2.tipo = "Soja" then
            let rep := validate_soybean_parameters r.area r.espacamento
              (r.variedade.getD "convencional") irrigacao
            ({ r with recomendacoes := rep }, true)
          else if r2.tipo = "Cana-de-Açúcar" then
            let rep := validate_sugarcane_parameters r.area r.espacamento
              (r.ciclo.getD "médio") irrigacao
            ({ r with recomendacoes := rep }, true)
          else (r, true)
      let r4 := step_irr.1
      let u4 := step_irr.2
      if u4 ∧ (form.area.isSome ∨ form.espacamento.isSome) then
        match calculate_lines 0 r4.toLinesInput with
        | Except.error e => Except.error e
        | Except.ok linhas =>
          Except.ok (calculate_inputs { r4 with linhas_calculadas := linhas }, u4)
      else
        Except.ok (r4, u4)

/-- The profile effectively consulted by `validate_sugarcane_parameters`
for a given (raw) cycle key. -/
def sugarcane_profile (ciclo : String) : SubTypeProfile :=
  (SUGARCANE_RECOMMENDATIONS (sugarcane_effective_cycle ciclo)).getD sugarcaneMedio

/-- The profile effectively consulted by `validate_soybean_parameters`
for a given (raw) variety key. -/
def soybean_profile (variedade : String) : SubTypeProfile :=
  (SOYBEAN_RECOMMENDATIONS (soybean_effective_variety variedade)).getD soybeanConvencional

/-- A concrete stored soybean record (50 ha, 0.45 m spacing, conventional
variety, no irrigation), as assembled by `create_culture` with row count
`1571 = floor(sqrt(500000)/0.45)` and no enrichment; used as a concrete
input for the derivation and update operations. -/
def sampleSoyRecord : CultureRecord where
  area := 50
  espacamento := 0.45
  irrigacao := false
  tipo := "Soja"
  variedade := some "convencional"
  ciclo := none
  strategy := "quadrado"
  recomendacoes := validate_soybean_parameters 50 0.45 "convencional" false
  dosagem_herbicida := 2.5
  dosagem_fertilizante := 300
  linhas_calculadas := 1571
  quantidade_herbicida := 125
  quantidade_fertilizante := 15000
  comprimento_linha := none
  metros_lineares_total := none
  consumo_agua := none
  analise_estatistica := none

lemma pyInt_eq_floor {x : ℝ} (h : 0 ≤ x) : pyInt x = ⌊x⌋ := if_pos h

/-- C2: for every `area > 0` and `spacing > 0`, the square row-count
strategy returns exactly `floor(sqrt(area * 10000) / spacing)`
(truncation toward zero coincides with floor on these non-negative
inputs). -/
theorem square_strategy_eq_floor (area espacamento : ℚ)
    (ha : 0 < area) (he : 0 < espacamento) :
    calculate_square_strategy area espacamento =
      ⌊Real.sqrt ((area : ℝ) * 10000) / (espacamento : ℝ)⌋ := by
  unfold calculate_square_strategy
  refine pyInt_eq_floor (div_nonneg (Real.sqrt_nonneg _) ?_)
  exact_mod_cast he.le

/-- Witness for `square_strategy_eq_floor` at the spec scenario
`area = 50`, `spacing = 0.45`. -/
theorem square_strategy_eq_floor_witness :
    (0 : ℚ) < 50 ∧ (0 : ℚ) < 0.45 ∧
      calculate_square_strategy 50 0.45 =
        ⌊Real.sqrt (((50 : ℚ) : ℝ) * 10000) / ((0.45 : ℚ) : ℝ)⌋ :=
  ⟨by norm_num, by norm_num,
    square_strategy_eq_floor 50 0.45 (by norm_num) (by norm_num)⟩

/-- C3: for every `area > 0` and `spacing > 0`, the rectangular
row-count strategy, at its fixed aspect ratio `1.5`, returns exactly
`floor(sqrt(area * 10000 / 1.5) / spacing)` — only the rectangle width
`sqrt(area_m2 / 1.5)` is divided into rows. -/
theorem rectangular_strategy_eq_floor (area espacamento : ℚ)
    (ha : 0 < area) (he : 0 < espacamento) :
    calculate_rectangular_strategy area espacamento 1.5 =
      ⌊Real.sqrt ((area : ℝ) * 10000 / 1.5) / (espacamento : ℝ)⌋ := by
  unfold calculate_rectangular_strategy
  have hcast : ((1.5 : ℚ) : ℝ) = (1.5 : ℝ) := by norm_num
  rw [hcast]
  refine pyInt_eq_floor (div_nonneg (Real.sqrt_nonneg _) ?_)
  exact_mod_cast he.le

/-- Witness for `rectangular_strategy_eq_floor` at `area = 30`,
`spacing = 1.5`. -/
theorem rectangular_strategy_eq_floor_witness :
    (0 : ℚ) < 30 ∧ (0 : ℚ) < 1.5 ∧
      calculate_rectangular_strategy 30 1.5 1.5 =
        ⌊Real.sqrt (((30 : ℚ) : ℝ) * 10000 / 1.5) / ((1.5 : ℚ) : ℝ)⌋ :=
  ⟨by norm_num, by norm_num,
    rectangular_strategy_eq_floor 30 1.5 (by norm_num) (by norm_num)⟩

lemma calculate_lines_by_strategy_eq (s : String) (area esp : ℚ) :
    calculate_lines_by_strategy s area esp =
      if s = "retangular" then
        calculate_rectangular_strategy area (if esp ≤ 0 then 1 else esp) 1.5
      else
        calculate_square_strategy area (if esp ≤ 0 then 1 else esp) := by
  unfold calculate_lines_by_strategy calculation_strategies
  by_cases h1 : s = "quadrado"
  · subst h1; simp
  · by_cases h2 : s = "retangular"
    · subst h2; simp
    · simp [h1, h2]

lemma calculate_lines_by_strategy_checked_eq (s : String) (area esp : ℚ) :
    calculate_lines_by_strategy_checked s area esp =
      if s = "retangular" then
        calculate_rectangular_strategy_checked area (if esp ≤ 0 then 1 else esp) 1.5
      else
        calculate_square_strategy_checked area (if esp ≤ 0 then 1 else esp) := by
  unfold calculate_lines_by_strategy_checked calculation_strategies_checked
  by_cases h1 : s = "quadrado"
  · subst h1; simp
  · by_cases h2 : s = "retangular"
    · subst h2; simp
    · simp [h1, h2]

lemma calculate_square_strategy_checked_ok (area esp : ℚ) (ha : 0 ≤ area) :
    calculate_square_strategy_checked area esp =
      Except.ok (calculate_square_strategy area esp) := by
  unfold calculate_square_strategy_checked calculate_square_strategy math_sqrt
  dsimp only
  rw [if_neg (not_lt.mpr (mul_nonneg (by exact_mod_cast ha) (by norm_num)))]

lemma calculate_rectangular_strategy_checked_ok (area esp : ℚ) (ha : 0 ≤ area) :
    calculate_rectangular_strategy_checked area esp 1.5 =
      Except.ok (calculate_rectangular_strategy area esp 1.5) := by
  unfold calculate_rectangular_strategy_checked calculate_rectangular_strategy math_sqrt
  have h0 : (0 : ℝ) ≤ (area : ℝ) * 10000 :=
    mul_nonneg (by exact_mod_cast ha) (by norm_num)
  have hp : (0 : ℝ) ≤ ((1.5 : ℚ) : ℝ) := by norm_num
  dsimp only
  rw [if_neg (not_lt.mpr (mul_nonneg h0 hp)), if_neg (not_lt.mpr (div_nonneg h0 hp))]

/-- C5 counterexample: the engine is not total over every area — for a
negative area the source's unguarded `math.sqrt` raises `ValueError`
(math domain error) instead of returning an integer, already through
the registered `"quadrado"` strategy with a positive spacing. -/
theorem lines_engine_negative_area_fails :
    calculate_lines_by_strategy_checked "quadrado" (-1) 2 =
      Except.error "math domain error" := by
  rw [calculate_lines_by_strategy_checked_eq]
  rw [if_neg (by simp), if_neg (by norm_num : ¬ ((2 : ℚ) ≤ 0))]
  unfold calculate_square_strategy_checked math_sqrt
  dsimp only
  rw [if_pos (by push_cast; norm_num : ((-1 : ℚ) : ℝ) * 10000 < 0)]

/-- C5 (amended): for every strategy name, every area `≥ 0` and every
spacing (including zero and negative spacing) the engine returns some
integer and never fails — an unrecognized strategy name behaves exactly
as `"quadrado"` and a non-positive spacing exactly as spacing `1.0`;
only a negative area escapes this permissive-degradation policy, via
the unguarded `math.sqrt`. -/
theorem lines_engine_total_nonneg (s : String) (area esp : ℚ) (ha : 0 ≤ area) :
    (calculate_lines_by_strategy_checked s area esp =
       Except.ok (calculate_lines_by_strategy s area esp)) ∧
    (calculation_strategies_checked s = none →
       calculate_lines_by_strategy_checked s area esp =
         calculate_lines_by_strategy_checked "quadrado" area esp) ∧
    (esp ≤ 0 →
       calculate_lines_by_strategy_checked s area esp =
         calculate_lines_by_strategy_checked s area 1) := by
  refine ⟨?_, ?_, ?_⟩
  · rw [calculate_lines_by_strategy_checked_eq, calculate_lines_by_strategy_eq]
    by_cases h2 : s = "retangular"
    · rw [if_pos h2, if_pos h2, calculate_rectangular_strategy_checked_ok _ _ ha]
    · rw [if_neg h2, if_neg h2, calculate_square_strategy_checked_ok _ _ ha]
  · intro hnone
    have hr : s ≠ "retangular" := by
      intro h; subst h; simp [calculation_strategies_checked] at hnone
    rw [calculate_lines_by_strategy_checked_eq, calculate_lines_by_strategy_checked_eq]
    simp [hr]
  · intro hle
    rw [calculate_lines_by_strategy_checked_eq, calculate_lines_by_strategy_checked_eq]
    have h1 : ¬ ((1 : ℚ) ≤ 0) := by norm_num
    simp [hle, h1]

/-- Witness for `lines_engine_total_nonneg`: an unknown strategy name
with a negative spacing and non-negative area still yields an integer
(no failure). -/
theorem lines_engine_total_nonneg_witness :
    (0 : ℚ) ≤ 50 ∧
      calculate_lines_by_strategy_checked "hexagonal" 50 (-2) =
        Except.ok (calculate_lines_by_strategy "hexagonal" 50 (-2)) :=
  ⟨by norm_num, (lines_engine_total_nonneg "hexagonal" 50 (-2) (by norm_num)).1⟩

lemma calculate_square_strategy_zero (e : ℚ) : calculate_square_strategy 0 e = 0 := by
  unfold calculate_square_strategy
  norm_num [pyInt, Real.sqrt_zero]

lemma calculate_rectangular_strategy_zero (e p : ℚ) :
    calculate_rectangular_strategy 0 e p = 0 := by
  unfold calculate_rectangular_strategy
  norm_num [pyInt, Real.sqrt_zero]

lemma lines_zero (s : String) (e : ℚ) : calculate_lines_by_strategy s 0 e = 0 := by
  rw [calculate_lines_by_strategy_eq]
  by_cases hs : s = "retangular" <;>
    simp [hs, calculate_square_strategy_zero, calculate_rectangular_strategy_zero]

/-- C10: the exposed per-record operation `calculate_lines` raises on a
stored non-positive (or missing, hence `0`) spacing instead of applying
the engine's `1.0` fallback; with positive spacing it delegates to the
strategy engine with the record's strategy (default `"quadrado"`) and
area (default `0`, which yields `0` rows). -/
theorem calculate_lines_error_and_delegation (cid : ℤ) (d : LinesInput) :
    (d.espacamento.getD 0 ≤ 0 →
       calculate_lines cid d =
         Except.error "Espaçamento inválido. Deve ser maior que zero.") ∧
    (0 < d.espacamento.getD 0 →
       calculate_lines cid d =
         Except.ok (calculate_lines_by_strategy (d.strategy.getD "quadrado")
           (d.area.getD 0) (d.espacamento.getD 0))) ∧
    (0 < d.espacamento.getD 0 → d.area = none →
       calculate_lines cid d = Except.ok 0) := by
  refine ⟨?_, ?_, ?_⟩
  · intro h
    unfold calculate_lines
    rw [if_pos h]
  · intro h
    unfold calculate_lines
    rw [if_neg (not_le.mpr h)]
  · intro h harea
    unfold calculate_lines
    rw [if_neg (not_le.mpr h)]
    rw [harea]
    simp [lines_zero]

/-- Witness for `calculate_lines_error_and_delegation`: a record with
spacing `-1` raises, and a record with spacing `2` but no stored area
yields `0` rows. -/
theorem calculate_lines_error_and_delegation_witness :
    (({ strategy := some "quadrado", area := some 10, espacamento := some (-1) } :
        LinesInput).espacamento.getD 0 ≤ 0 ∧
      calculate_lines 0
          { strategy := some "quadrado", area := some 10, espacamento := some (-1) } =
        Except.error "Espaçamento inválido. Deve ser maior que zero.") ∧
    ((0 : ℚ) < (({ strategy := none, area := none, espacamento := some 2 } :
        LinesInput).espacamento.getD 0) ∧
      calculate_lines 0 { strategy := none, area := none, espacamento := some 2 } =
        Except.ok 0) := by
  constructor
  · exact ⟨by norm_num,
      (calculate_lines_error_and_delegation 0 _).1 (by norm_num)⟩
  · exact ⟨by norm_num,
      (calculate_lines_error_and_delegation 0 _).2.2 (by norm_num) rfl⟩

/-- C1: `create_culture` fails exactly when `area ≤ 0`, `spacing ≤ 0` or
the crop type is neither `1` nor `2`; on failure no record is produced,
and otherwise a (complete) record is returned. -/
theorem create_culture_error_iff (ct : ℤ) (area esp : ℚ) (irr : Bool)
    (kw : Kwargs) (ra : Option RAnalysis) :
    ((∃ e, create_culture ct area esp irr kw ra = Except.error e) ↔
       (area ≤ 0 ∨ esp ≤ 0 ∨ (ct ≠ 1 ∧ ct ≠ 2))) ∧
    ((∃ r, create_culture ct area esp irr kw ra = Except.ok r) ↔
       (0 < area ∧ 0 < esp ∧ (ct = 1 ∨ ct = 2))) := by
  unfold create_culture
  split_ifs with h1 h2 h3 h4 <;> simp_all [not_le]

lemma calculate_inputs_area (r : CultureRecord) :
    (calculate_inputs r).area = r.area := by
  unfold calculate_inputs; dsimp only; split <;> rfl

lemma calculate_inputs_espacamento (r : CultureRecord) :
    (calculate_inputs r).espacamento = r.espacamento := by
  unfold calculate_inputs; dsimp only; split <;> rfl

lemma calculate_inputs_recomendacoes (r : CultureRecord) :
    (calculate_inputs r).recomendacoes = r.recomendacoes := by
  unfold calculate_inputs; dsimp only; split <;> rfl

lemma calculate_inputs_linhas (r : CultureRecord) :
    (calculate_inputs r).linhas_calculadas = r.linhas_calculadas := by
  unfold calculate_inputs; dsimp only; split <;> rfl

lemma calculate_inputs_dosagem_herbicida (r : CultureRecord) :
    (calculate_inputs r).dosagem_herbicida = r.dosagem_herbicida := by
  unfold calculate_inputs; dsimp only; split <;> rfl

lemma calculate_inputs_dosagem_fertilizante (r : CultureRecord) :
    (calculate_inputs r).dosagem_fertilizante = r.dosagem_fertilizante := by
  unfold calculate_inputs; dsimp only; split <;> rfl

lemma calculate_inputs_analise (r : CultureRecord) :
    (calculate_inputs r).analise_estatistica = r.analise_estatistica := by
  unfold calculate_inputs; dsimp only; split <;> rfl

lemma calculate_inputs_quantidade_herbicida (r : CultureRecord) :
    (calculate_inputs r).quantidade_herbicida = r.area * r.dosagem_herbicida := by
  unfold calculate_inputs; dsimp only; split <;> rfl

lemma calculate_inputs_quantidade_fertilizante (r : CultureRecord) :
    (calculate_inputs r).quantidade_fertilizante = r.area * r.dosagem_fertilizante := by
  unfold calculate_inputs; dsimp only; split <;> rfl

lemma calculate_inputs_comprimento_pos (r : CultureRecord)
    (h : 0 < r.linhas_calculadas ∧ 0 < r.espacamento) :
    (calculate_inputs r).comprimento_linha =
        some ((r.area * 10000) / ((r.linhas_calculadas : ℚ) * r.espacamento)) ∧
      (calculate_inputs r).metros_lineares_total =
        some ((r.linhas_calculadas : ℚ) *
          ((r.area * 10000) / ((r.linhas_calculadas : ℚ) * r.espacamento))) := by
  unfold calculate_inputs
  dsimp only
  rw [if_pos h]
  exact ⟨rfl, rfl⟩

lemma calculate_inputs_comprimento_neg (r : CultureRecord)
    (h : ¬ (0 < r.linhas_calculadas ∧ 0 < r.espacamento)) :
    (calculate_inputs r).comprimento_linha = r.comprimento_linha ∧
      (calculate_inputs r).metros_lineares_total = r.metros_lineares_total := by
  unfold calculate_inputs
  dsimp only
  rw [if_neg h]
  exact ⟨rfl, rfl⟩

lemma finalize_record_recomendacoes (base : CultureRecord) (s : String)
    (a e : ℚ) (irr : Bool) (ra : Option RAnalysis) :
    (finalize_record base s a e irr ra).recomendacoes = base.recomendacoes := by
  unfold finalize_record
  cases ra <;> split <;> simp [calculate_inputs_recomendacoes]

lemma finalize_record_linhas (base : CultureRecord) (s : String)
    (a e : ℚ) (irr : Bool) (ra : Option RAnalysis) :
    (finalize_record base s a e irr ra).linhas_calculadas =
      calculate_lines_by_strategy s a e := by
  unfold finalize_record
  cases ra <;> split <;> simp [calculate_inputs_linhas]

lemma finalize_record_dosagem_herbicida (base : CultureRecord) (s : String)
    (a e : ℚ) (irr : Bool) (ra : Option RAnalysis) :
    (finalize_record base s a e irr ra).dosagem_herbicida = base.dosagem_herbicida := by
  unfold finalize_record
  cases ra <;> split <;> simp [calculate_inputs_dosagem_herbicida]

lemma finalize_record_dosagem_fertilizante (base : CultureRecord) (s : String)
    (a e : ℚ) (irr : Bool) (ra : Option RAnalysis) :
    (finalize_record base s a e irr ra).dosagem_fertilizante = base.dosagem_fertilizante := by
  unfold finalize_record
  cases ra <;> split <;> simp [calculate_inputs_dosagem_fertilizante]

lemma finalize_record_quantidade_herbicida (base : CultureRecord) (s : String)
    (a e : ℚ) (irr : Bool) (ra : Option RAnalysis) :
    (finalize_record base s a e irr ra).quantidade_herbicida =
      base.area * base.dosagem_herbicida := by
  unfold finalize_record
  cases ra <;> split <;> simp [calculate_inputs_quantidade_herbicida]

lemma finalize_record_quantidade_fertilizante (base : CultureRecord) (s : String)
    (a e : ℚ) (irr : Bool) (ra : Option RAnalysis) :
    (finalize_record base s a e irr ra).quantidade_fertilizante =
      base.area * base.dosagem_fertilizante := by
  unfold finalize_record
  cases ra <;> split <;> simp [calculate_inputs_quantidade_fertilizante]

lemma finalize_record_analise_none (base : CultureRecord) (s : String)
    (a e : ℚ) (irr : Bool) :
    (finalize_record base s a e irr none).analise_estatistica =
      base.analise_estatistica := by
  unfold finalize_record
  split <;> simp [calculate_inputs_analise]

/-- C9: every failure mode of the analysis collaborator surfaces as
`none` from `send_to_r_for_analysis`, and record creation with an absent
analysis still succeeds, carries no enrichment field, and has the same
validation report, row count, dosage constants and input totals as a
creation with any collaborator outcome. -/
theorem analysis_failure_degrades :
    (∀ (v : Bool) (ex : Except String RAnalysis),
       v = false ∨ (∃ e, ex = Except.error e) →
         send_to_r_for_analysis v ex = none) ∧
    (∀ (ct : ℤ) (area esp : ℚ) (irr : Bool) (kw : Kwargs),
       0 < area → 0 < esp → (ct = 1 ∨ ct = 2) →
       ∃ r, create_culture ct area esp irr kw none = Except.ok r ∧
         r.analise_estatistica = none ∧
         ∀ (ra : Option RAnalysis) (r2 : CultureRecord),
           create_culture ct area esp irr kw ra = Except.ok r2 →
             r2.recomendacoes = r.recomendacoes ∧
             r2.linhas_calculadas = r.linhas_calculadas ∧
             r2.dosagem_herbicida = r.dosagem_herbicida ∧
             r2.dosagem_fertilizante = r.dosagem_fertilizante ∧
             r2.quantidade_herbicida = r.quantidade_herbicida ∧
             r2.quantidade_fertilizante = r.quantidade_fertilizante) := by
  constructor
  · intro v ex h
    rcases h with rfl | ⟨e, rfl⟩
    · rfl
    · cases v <;> rfl
  · intro ct area esp irr kw ha he hct
    have hna : ¬ area ≤ 0 := not_le.mpr ha
    have hne : ¬ esp ≤ 0 := not_le.mpr he
    rcases hct with rfl | rfl
    · unfold create_culture
      rw [if_neg hna, if_neg hne, if_pos rfl]
      dsimp only
      refine ⟨_, rfl, ?_, ?_⟩
      · rw [finalize_record_analise_none]
      · intro ra r2 h2
        rw [if_neg hna, if_neg hne, if_pos rfl, Except.ok.injEq] at h2
        subst h2
        exact ⟨by rw [finalize_record_recomendacoes, finalize_record_recomendacoes],
          by rw [finalize_record_linhas, finalize_record_linhas],
          by rw [finalize_record_dosagem_herbicida, finalize_record_dosagem_herbicida],
          by rw [finalize_record_dosagem_fertilizante, finalize_record_dosagem_fertilizante],
          by rw [finalize_record_quantidade_herbicida, finalize_record_quantidade_herbicida],
          by rw [finalize_record_quantidade_fertilizante, finalize_record_quantidade_fertilizante]⟩
    · unfold create_culture
      rw [if_neg hna, if_neg hne]
      rw [if_neg (by norm_num : ¬ ((2 : ℤ) = 1)), if_pos rfl]
      dsimp only
      refine ⟨_, rfl, ?_, ?_⟩
      · rw [finalize_record_analise_none]
      · intro ra r2 h2
        rw [if_neg hna, if_neg hne] at h2
        rw [if_neg (by norm_num : ¬ ((2 : ℤ) = 1)), if_pos rfl, Except.ok.injEq] at h2
        subst h2
        exact ⟨by rw [finalize_record_recomendacoes, finalize_record_recomendacoes],
          by rw [finalize_record_linhas, finalize_record_linhas],
          by rw [finalize_record_dosagem_herbicida, finalize_record_dosagem_herbicida],
          by rw [finalize_record_dosagem_fertilizante, finalize_record_dosagem_fertilizante],
          by rw [finalize_record_quantidade_herbicida, finalize_record_quantidade_herbicida],
          by rw [finalize_record_quantidade_fertilizante, finalize_record_quantidade_fertilizante]⟩

/-- Witness for `analysis_failure_degrades`: an execution error degrades
to `none`, and a soybean creation without enrichment succeeds with no
`analise_estatistica` field. -/
theorem analysis_failure_degrades_witness :
    send_to_r_for_analysis true (Except.error "Timeout ao executar script R") = none ∧
    (create_culture 1 50 0.45 false { variedade := none, ciclo := none } none).map
        (fun r => r.analise_estatistica) = Except.ok none := by
  constructor
  · exact analysis_failure_degrades.1 true _ (Or.inr ⟨_, rfl⟩)
  · obtain ⟨r, h1, h2, -⟩ :=
      analysis_failure_degrades.2 1 50 0.45 false { variedade := none, ciclo := none }
        (by norm_num) (by norm_num) (Or.inl rfl)
    rw [h1, Except.map, h2]

/-- C7: the input-quantity derivation sets the herbicide and fertilizer
totals to `area × dose` exactly (no rounding), sets the row-length
estimate and total linear metres exactly when `row_count > 0` and
`spacing > 0` and leaves them absent otherwise; and records built by
`create_culture` carry the fixed per-crop doses (soybean `2.5` and
`300`, sugarcane `3.0` and `400`). -/
theorem inputs_derivation :
    (∀ r : CultureRecord,
       (calculate_inputs r).quantidade_herbicida = r.area * r.dosagem_herbicida ∧
       (calculate_inputs r).quantidade_fertilizante = r.area * r.dosagem_fertilizante ∧
       (0 < r.linhas_calculadas ∧ 0 < r.espacamento →
          (calculate_inputs r).comprimento_linha =
            some ((r.area * 10000) / ((r.linhas_calculadas : ℚ) * r.espacamento)) ∧
          (calculate_inputs r).metros_lineares_total =
            some ((r.linhas_calculadas : ℚ) *
              ((r.area * 10000) / ((r.linhas_calculadas : ℚ) * r.espacamento)))) ∧
       (¬ (0 < r.linhas_calculadas ∧ 0 < r.espacamento) →
          r.comprimento_linha = none → r.metros_lineares_total = none →
            (calculate_inputs r).comprimento_linha = none ∧
            (calculate_inputs r).metros_lineares_total = none)) ∧
    (∀ (ct : ℤ) (area esp : ℚ) (irr : Bool) (kw : Kwargs)
       (ra : Option RAnalysis) (r : CultureRecord),
       create_culture ct area esp irr kw ra = Except.ok r →
         (ct = 1 → r.dosagem_herbicida = 2.5 ∧ r.dosagem_fertilizante = 300) ∧
         (ct = 2 → r.dosagem_herbicida = 3.0 ∧ r.dosagem_fertilizante = 400)) := by
  constructor
  · intro r
    refine ⟨calculate_inputs_quantidade_herbicida r,
      calculate_inputs_quantidade_fertilizante r, ?_, ?_⟩
    · intro h
      exact calculate_inputs_comprimento_pos r h
    · intro h hcl hml
      have h2 := calculate_inputs_comprimento_neg r h
      rw [hcl] at h2
      rw [hml] at h2
      exact h2
  · intro ct area esp irr kw ra r h
    unfold create_culture at h
    split_ifs at h with h1 h2 h3 h4
    · simp only [Except.ok.injEq] at h
      subst h
      refine ⟨fun _ => ⟨?_, ?_⟩, fun hct => ?_⟩
      · rw [finalize_record_dosagem_herbicida]
      · rw [finalize_record_dosagem_fertilizante]
      · rw [h3] at hct
        exact absurd hct (by norm_num)
    · simp only [Except.ok.injEq] at h
      subst h
      refine ⟨fun hct => ?_, fun _ => ⟨?_, ?_⟩⟩
      · rw [h4] at hct
        exact absurd hct (by norm_num)
      · rw [finalize_record_dosagem_herbicida]
      · rw [finalize_record_dosagem_fertilizante]

/-- Witness for `inputs_derivation` at the concrete stored soybean
record: `50 × 2.5 = 125` litres of herbicide and a row length of
`500000 / (1571 × 0.45)` metres. -/
theorem inputs_derivation_witness :
    (calculate_inputs sampleSoyRecord).quantidade_herbicida = 125 ∧
    (0 < sampleSoyRecord.linhas_calculadas ∧ 0 < sampleSoyRecord.espacamento) ∧
    (calculate_inputs sampleSoyRecord).comprimento_linha =
      some (500000 / (1571 * 0.45)) := by
  have h := inputs_derivation.1 sampleSoyRecord
  have hpos : 0 < sampleSoyRecord.linhas_calculadas ∧ 0 < sampleSoyRecord.espacamento := by
    constructor <;> norm_num [sampleSoyRecord]
  refine ⟨?_, hpos, ?_⟩
  · rw [h.1]
    norm_num [sampleSoyRecord]
  · rw [(h.2.2.1 hpos).1]
    norm_num [sampleSoyRecord]

lemma sugarcane_effective_cycle_fallback (k : String)
    (h : k = "" ∨ SUGARCANE_RECOMMENDATIONS (pyLower k) = none) :
    sugarcane_effective_cycle k = "médio" := by
  unfold sugarcane_effective_cycle
  rcases h with rfl | h
  · decide
  · by_cases hk : k.isEmpty
    · simp [hk, SUGARCANE_RECOMMENDATIONS]
    · simp [hk, h]

lemma soybean_effective_variety_fallback (k : String)
    (h : k = "" ∨ SOYBEAN_RECOMMENDATIONS (pyLower k) = none) :
    soybean_effective_variety k = "convencional" := by
  unfold soybean_effective_variety
  rcases h with rfl | h
  · decide
  · by_cases hk : k.isEmpty
    · simp [hk, SOYBEAN_RECOMMENDATIONS]
    · simp [hk, h]

/-- C6 counterexample: `"CURTO"` is a differently-cased key, yet its
report differs from the default (`"médio"`) report — after lowercasing
it is a recognized key and selects the short-cycle profile, under which
spacing `1.45` is `adequado` while the medium profile classifies it
`abaixo`. -/
theorem validators_case_key_counterexample :
    (validate_sugarcane_parameters 15 1.45 "CURTO" true).espacamento.status = "adequado" ∧
    (validate_sugarcane_parameters 15 1.45 "médio" true).espacamento.status = "abaixo" ∧
    validate_sugarcane_parameters 15 1.45 "CURTO" true ≠
      validate_sugarcane_parameters 15 1.45 "médio" true := by
  have e1 : sugarcane_effective_cycle "CURTO" = "curto" := by decide
  have e2 : sugarcane_effective_cycle "médio" = "médio" := by decide
  have h1 : (validate_sugarcane_parameters 15 1.45 "CURTO" true).espacamento.status =
      "adequado" := by
    unfold validate_sugarcane_parameters
    rw [e1]
    simp [sugarcane_report, SUGARCANE_RECOMMENDATIONS, sugarcaneCurto]
    norm_num
  have h2 : (validate_sugarcane_parameters 15 1.45 "médio" true).espacamento.status =
      "abaixo" := by
    unfold validate_sugarcane_parameters
    rw [e2]
    simp [sugarcane_report, SUGARCANE_RECOMMENDATIONS, sugarcaneMedio]
    norm_num
  refine ⟨h1, h2, fun heq => ?_⟩
  rw [heq, h2] at h1
  exact absurd h1 (by decide)

/-- C6 (amended): an empty key, or one that is not a table key after
lowercasing, validates identically to the crop default sub-type
(`"médio"` for sugarcane, `"convencional"` for soybean); a
differently-cased but recognized key such as `"CURTO"` validates as its
own lowercased sub-type. -/
theorem validators_default_fallback (k kv : String) (area esp : ℚ) (irr : Bool)
    (hs : k = "" ∨ SUGARCANE_RECOMMENDATIONS (pyLower k) = none)
    (hv : kv = "" ∨ SOYBEAN_RECOMMENDATIONS (pyLower kv) = none) :
    validate_sugarcane_parameters area esp k irr =
      validate_sugarcane_parameters area esp "médio" irr ∧
    validate_soybean_parameters area esp kv irr =
      validate_soybean_parameters area esp "convencional" irr ∧
    validate_sugarcane_parameters area esp "CURTO" irr =
      validate_sugarcane_parameters area esp "curto" irr := by
  refine ⟨?_, ?_, ?_⟩
  · unfold validate_sugarcane_parameters
    rw [sugarcane_effective_cycle_fallback k hs,
      show sugarcane_effective_cycle "médio" = "médio" from by decide]
  · unfold validate_soybean_parameters
    rw [soybean_effective_variety_fallback kv hv,
      show soybean_effective_variety "convencional" = "convencional" from by decide]
  · unfold validate_sugarcane_parameters
    rw [show sugarcane_effective_cycle "CURTO" = "curto" from by decide,
      show sugarcane_effective_cycle "curto" = "curto" from by decide]

/-- Witness for `validators_default_fallback`: the spec example
`sub_type = "invalid_value"` at `area = 15`, `spacing = 1.55` validates
identically to `"médio"`. -/
theorem validators_default_fallback_witness :
    SUGARCANE_RECOMMENDATIONS (pyLower "invalid_value") = none ∧
    SOYBEAN_RECOMMENDATIONS (pyLower "Invalid") = none ∧
    validate_sugarcane_parameters 15 1.55 "invalid_value" true =
      validate_sugarcane_parameters 15 1.55 "médio" true := by
  refine ⟨by decide, by decide, ?_⟩
  exact (validators_default_fallback "invalid_value" "Invalid" 15 1.55 true
    (Or.inr (by decide)) (Or.inr (by decide))).1

/-- C8: evaluation of `update_culture` at the failing input — updating
only the area (from `50` to `3`) of a stored soybean record succeeds and
re-derives the row count and input quantities, but leaves the stored
recommendation report unchanged: it still classifies the area as
`adequada` although validating the new area `3` classifies it `abaixo`.
The external analysis step is (correctly) not re-run. -/
theorem update_area_keeps_stale_report :
    (update_culture sampleSoyRecord
        { area := some 3, espacamento := none, variedade := none,
          ciclo := none, irrigacao := none }).map
        (fun p => (p.1.area, p.1.recomendacoes, p.1.analise_estatistica, p.2)) =
      Except.ok (3, sampleSoyRecord.recomendacoes, none, true) ∧
    sampleSoyRecord.recomendacoes.area.status = "adequada" ∧
    (validate_soybean_parameters 3 0.45 "convencional" false).area.status = "abaixo" := by
  refine ⟨?_, by decide, by decide⟩
  have c1 : ¬ ((3 : ℚ) ≤ 0) := by norm_num
  have c2 : ¬ ((0.45 : ℚ) ≤ 0) := by norm_num
  simp [update_culture, sampleSoyRecord, calculate_lines, CultureRecord.toLinesInput,
    c1, c2, calculate_inputs_area, calculate_inputs_recomendacoes, calculate_inputs_analise,
    Except.map]

lemma tri_spacing (v mn mx : ℚ) (hle : mn ≤ mx) :
    ((if v < mn then "abaixo" else if mx < v then "acima" else "adequado") = "abaixo" ↔
        v < mn) ∧
    ((if v < mn then "abaixo" else if mx < v then "acima" else "adequado") = "acima" ↔
        mx < v) ∧
    ((if v < mn then "abaixo" else if mx < v then "acima" else "adequado") = "adequado" ↔
        (mn ≤ v ∧ v ≤ mx)) := by
  split_ifs with h1 h2 <;> simp_all [not_lt] <;> intros <;> linarith

lemma tri_area_some (v mn m0 : ℚ) (hnz : m0 ≠ 0) (hmn2 : mn ≤ m0) :
    ((if v < mn then "abaixo" else if pyTruthyGtMax (some m0) v then "acima"
        else "adequada") = "abaixo" ↔ v < mn) ∧
    ((if v < mn then "abaixo" else if pyTruthyGtMax (some m0) v then "acima"
        else "adequada") = "acima" ↔ m0 < v) ∧
    ((if v < mn then "abaixo" else if pyTruthyGtMax (some m0) v then "acima"
        else "adequada") = "adequada" ↔ (mn ≤ v ∧ v ≤ m0)) := by
  simp only [pyTruthyGtMax, if_neg hnz]
  split_ifs with h1 h2 <;>
    simp_all [not_lt, decide_eq_true_iff] <;> intros <;> linarith

lemma tri_area_none (v mn : ℚ) :
    ((if v < mn then "abaixo" else if pyTruthyGtMax none v then "acima"
        else "adequada") = "abaixo" ↔ v < mn) ∧
    ((if v < mn then "abaixo" else if pyTruthyGtMax none v then "acima"
        else "adequada") = "acima" ↔ False) ∧
    ((if v < mn then "abaixo" else if pyTruthyGtMax none v then "acima"
        else "adequada") = "adequada" ↔ mn ≤ v) := by
  simp only [pyTruthyGtMax]
  split_ifs with h1 <;> simp_all [not_lt] <;> intros <;> linarith

lemma sugarcane_espacamento_status_eq (area esp : ℚ) (c : String) (irr : Bool) :
    (validate_sugarcane_parameters area esp c irr).espacamento.status =
      if esp < (sugarcane_profile c).espacamento.min then "abaixo"
      else if (sugarcane_profile c).espacamento.max < esp then "acima"
      else "adequado" := rfl

lemma sugarcane_area_status_eq (area esp : ℚ) (c : String) (irr : Bool) :
    (validate_sugarcane_parameters area esp c irr).area.status =
      if area < (sugarcane_profile c).area.min then "abaixo"
      else if pyTruthyGtMax (sugarcane_profile c).area.max area then "acima"
      else "adequada" := rfl

lemma soybean_espacamento_status_eq (area esp : ℚ) (v : String) (irr : Bool) :
    (validate_soybean_parameters area esp v irr).espacamento.status =
      if esp < (soybean_profile v).espacamento.min then "abaixo"
      else if (soybean_profile v).espacamento.max < esp then "acima"
      else "adequado" := rfl

lemma soybean_area_status_eq (area esp : ℚ) (v : String) (irr : Bool) :
    (validate_soybean_parameters area esp v irr).area.status =
      if area < (soybean_profile v).area.min then "abaixo"
      else if pyTruthyGtMax (soybean_profile v).area.max area then "acima"
      else "adequada" := rfl

lemma sugarcane_profile_cases (c : String) :
    sugarcane_profile c = sugarcaneCurto ∨ sugarcane_profile c = sugarcaneMedio ∨
      sugarcane_profile c = sugarcaneLongo := by
  unfold sugarcane_profile SUGARCANE_RECOMMENDATIONS
  split_ifs <;> simp

lemma soybean_profile_cases (v : String) :
    soybean_profile v = soybeanConvencional ∨ soybean_profile v = soybeanTransgenica := by
  unfold soybean_profile SOYBEAN_RECOMMENDATIONS
  split_ifs <;> simp

lemma sugarcane_tri (area esp : ℚ) (c : String) (irr : Bool) :
    ((validate_sugarcane_parameters area esp c irr).espacamento.status = "abaixo" ↔
        esp < (sugarcane_profile c).espacamento.min) ∧
    ((validate_sugarcane_parameters area esp c irr).espacamento.status = "acima" ↔
        (sugarcane_profile c).espacamento.max < esp) ∧
    ((validate_sugarcane_parameters area esp c irr).espacamento.status = "adequado" ↔
        ((sugarcane_profile c).espacamento.min ≤ esp ∧
          esp ≤ (sugarcane_profile c).espacamento.max)) ∧
    ((validate_sugarcane_parameters area esp c irr).area.status = "abaixo" ↔
        area < (sugarcane_profile c).area.min) ∧
    ((validate_sugarcane_parameters area esp c irr).area.status = "acima" ↔
        (∃ m, (sugarcane_profile c).area.max = some m ∧ m < area)) ∧
    ((validate_sugarcane_parameters area esp c irr).area.status = "adequada" ↔
        ((sugarcane_profile c).area.min ≤ area ∧
          ∀ m, (sugarcane_profile c).area.max = some m → area ≤ m)) := by
  rw [sugarcane_espacamento_status_eq, sugarcane_area_status_eq]
  rcases sugarcane_profile_cases c with hp | hp | hp <;> rw [hp]
  · have hmax : sugarcaneCurto.area.max = some 10 := rfl
    rw [hmax]
    have t1 := tri_spacing esp sugarcaneCurto.espacamento.min
      sugarcaneCurto.espacamento.max (by norm_num [sugarcaneCurto])
    have t2 := tri_area_some area sugarcaneCurto.area.min 10
      (by norm_num) (by norm_num [sugarcaneCurto])
    refine ⟨t1.1, t1.2.1, t1.2.2, t2.1, ?_, ?_⟩
    · rw [t2.2.1]; simp
    · rw [t2.2.2]; simp
  · have hmax : sugarcaneMedio.area.max = some 20 := rfl
    rw [hmax]
    have t1 := tri_spacing esp sugarcaneMedio.espacamento.min
      sugarcaneMedio.espacamento.max (by norm_num [sugarcaneMedio])
    have t2 := tri_area_some area sugarcaneMedio.area.min 20
      (by norm_num) (by norm_num [sugarcaneMedio])
    refine ⟨t1.1, t1.2.1, t1.2.2, t2.1, ?_, ?_⟩
    · rw [t2.2.1]; simp
    · rw [t2.2.2]; simp
  · have hmax : sugarcaneLongo.area.max = none := rfl
    rw [hmax]
    have t1 := tri_spacing esp sugarcaneLongo.espacamento.min
      sugarcaneLongo.espacamento.max (by norm_num [sugarcaneLongo])
    have t2 := tri_area_none area sugarcaneLongo.area.min
    refine ⟨t1.1, t1.2.1, t1.2.2, t2.1, ?_, ?_⟩
    · rw [t2.2.1]; simp
    · rw [t2.2.2]; simp

lemma soybean_tri (area esp : ℚ) (v : String) (irr : Bool) :
    ((validate_soybean_parameters area esp v irr).espacamento.status = "abaixo" ↔
        esp < (soybean_profile v).espacamento.min) ∧
    ((validate_soybean_parameters area esp v irr).espacamento.status = "acima" ↔
        (soybean_profile v).espacamento.max < esp) ∧
    ((validate_soybean_parameters area esp v irr).espacamento.status = "adequado" ↔
        ((soybean_profile v).espacamento.min ≤ esp ∧
          esp ≤ (soybean_profile v).espacamento.max)) ∧
    ((validate_soybean_parameters area esp v irr).area.status = "abaixo" ↔
        area < (soybean_profile v).area.min) ∧
    ((validate_soybean_parameters area esp v irr).area.status = "acima" ↔
        (∃ m, (soybean_profile v).area.max = some m ∧ m < area)) ∧
    ((validate_soybean_parameters area esp v irr).area.status = "adequada" ↔
        ((soybean_profile v).area.min ≤ area ∧
          ∀ m, (soybean_profile v).area.max = some m → area ≤ m)) := by
  rw [soybean_espacamento_status_eq, soybean_area_status_eq]
  rcases soybean_profile_cases v with hp | hp <;> rw [hp]
  · have hmax : soybeanConvencional.area.max = some 100 := rfl
    rw [hmax]
    have t1 := tri_spacing esp soybeanConvencional.espacamento.min
      soybeanConvencional.espacamento.max (by norm_num [soybeanConvencional])
    have t2 := tri_area_some area soybeanConvencional.area.min 100
      (by norm_num) (by norm_num [soybeanConvencional])
    refine ⟨t1.1, t1.2.1, t1.2.2, t2.1, ?_, ?_⟩
    · rw [t2.2.1]; simp
    · rw [t2.2.2]; simp
  · have hmax : soybeanTransgenica.area.max = some 300 := rfl
    rw [hmax]
    have t1 := tri_spacing esp soybeanTransgenica.espacamento.min
      soybeanTransgenica.espacamento.max (by norm_num [soybeanTransgenica])
    have t2 := tri_area_some area soybeanTransgenica.area.min 300
      (by norm_num) (by norm_num [soybeanTransgenica])
    refine ⟨t1.1, t1.2.1, t1.2.2, t2.1, ?_, ?_⟩
    · rw [t2.2.1]; simp
    · rw [t2.2.2]; simp

/-- C4: for every sub-type profile (reached through any raw key) and all
candidate values, the validators classify `abaixo` iff the value is
strictly below the profile minimum, `acima` iff the profile maximum is
bounded and strictly exceeded, and `adequado`/`adequada` otherwise
(bounds inclusive); the unbounded area maximum of the sugarcane long
cycle never yields `acima`. -/
theorem validate_status_tri_state (area esp : ℚ) (ciclo variedade : String)
    (irr : Bool) :
    (((validate_sugarcane_parameters area esp ciclo irr).espacamento.status = "abaixo" ↔
        esp < (sugarcane_profile ciclo).espacamento.min) ∧
     ((validate_sugarcane_parameters area esp ciclo irr).espacamento.status = "acima" ↔
        (sugarcane_profile ciclo).espacamento.max < esp) ∧
     ((validate_sugarcane_parameters area esp ciclo irr).espacamento.status = "adequado" ↔
        ((sugarcane_profile ciclo).espacamento.min ≤ esp ∧
          esp ≤ (sugarcane_profile ciclo).espacamento.max)) ∧
     ((validate_sugarcane_parameters area esp ciclo irr).area.status = "abaixo" ↔
        area < (sugarcane_profile ciclo).area.min) ∧
     ((validate_sugarcane_parameters area esp ciclo irr).area.status = "acima" ↔
        (∃ m, (sugarcane_profile ciclo).area.max = some m ∧ m < area)) ∧
     ((validate_sugarcane_parameters area esp ciclo irr).area.status = "adequada" ↔
        ((sugarcane_profile ciclo).area.min ≤ area ∧
          ∀ m, (sugarcane_profile ciclo).area.max = some m → area ≤ m))) ∧
    (((validate_soybean_parameters area esp variedade irr).espacamento.status = "abaixo" ↔
        esp < (soybean_profile variedade).espacamento.min) ∧
     ((validate_soybean_parameters area esp variedade irr).espacamento.status = "acima" ↔
        (soybean_profile variedade).espacamento.max < esp) ∧
     ((validate_soybean_parameters area esp variedade irr).espacamento.status = "adequado" ↔
        ((soybean_profile variedade).espacamento.min ≤ esp ∧
          esp ≤ (soybean_profile variedade).espacamento.max)) ∧
     ((validate_soybean_parameters area esp variedade irr).area.status = "abaixo" ↔
        area < (soybean_profile variedade).area.min) ∧
     ((validate_soybean_parameters area esp variedade irr).area.status = "acima" ↔
        (∃ m, (soybean_profile variedade).area.max = some m ∧ m < area)) ∧
     ((validate_soybean_parameters area esp variedade irr).area.status = "adequada" ↔
        ((soybean_profile variedade).area.min ≤ area ∧
          ∀ m, (soybean_profile variedade).area.max = some m → area ≤ m))) ∧
    ((sugarcane_profile "longo").area.max = none ∧
      (validate_sugarcane_parameters area esp "longo" irr).area.status ≠ "acima") := by
  refine ⟨sugarcane_tri area esp ciclo irr, soybean_tri area esp variedade irr,
    rfl, ?_⟩
  intro hac
  obtain ⟨m, hm, -⟩ := (sugarcane_tri area esp "longo" irr).2.2.2.2.1.mp hac
  rw [show (sugarcane_profile "longo").area.max = none from rfl] at hm
  exact Option.noConfusion hm

/-- Witness for `validate_status_tri_state` at the spec scenario: a
`500` ha area under the sugarcane long cycle (unbounded area maximum)
is never classified `acima`, and spacing exactly at a bound is
`adequado`. -/
theorem validate_status_tri_state_witness :
    (validate_sugarcane_parameters 500 1.7 "longo" true).area.status ≠ "acima" ∧
    ((validate_sugarcane_parameters 500 1.6 "longo" true).espacamento.status =
        "adequado" ↔
      ((sugarcane_profile "longo").espacamento.min ≤ 1.6 ∧
        (1.6 : ℚ) ≤ (sugarcane_profile "longo").espacamento.max)) :=
  ⟨(validate_status_tri_state 500 1.7 "longo" "convencional" true).2.2.2,
   (validate_status_tri_state 500 1.6 "longo" "convencional" true).1.2.2.1⟩

end Cap1

